import Mathlib

/-!
Verification of the polymorphic-target auxiliary services of the task-tracker
server (src/server/index.js and src/server/db.js): the reminder engine and the
link-attachment enrichment pipeline.

Modelling conventions (shallow embedding):
* Timestamps are integers. A stored `dueAt` string that passed the creation
  validation denotes an instant; `datetime(x) <= datetime(y)` on such strings
  is instant comparison, and `nowIso()` is an integer supplied by the caller.
* SQL rows become Lean structures shaped like the JSON the handlers return
  (`toReminder` / `toLinkAttachment` are identities under this shape).
* The embedded SQLite database becomes a `Store` holding the row lists; the
  `better-sqlite3` connection is synchronous and single-threaded, so each
  handler is a function `Store -> ... -> Reply x Store`, and a `db.transaction`
  is one such atomic step.
* `ORDER BY datetime(dueAt) ASC, id ASC` is modelled by sorting with
  `List.insertionSort` under the corresponding lexicographic relation; SQL
  promises some sorted permutation, which any sort implements.
* Request bodies after `express.json` become structures of `Option` fields:
  `none` models a field that is absent or has the wrong JS type, exactly where
  the handler tests `typeof`/`Number.isFinite`/`Date.parse`.
-/

namespace TaskTracker

/-- Discriminator for the polymorphic target/owner reference, from the SQL
CHECK constraints `targetType IN ('TASK','NOTE')` and
`ownerType IN ('TASK','NOTE')` in src/server/db.js. -/
inductive TargetType where
  | TASK
  | NOTE
  deriving DecidableEq, Repr

/-- Row of the `reminders` table (src/server/db.js), in the JSON shape
produced by `toReminder`: `isDone` is the 0/1 column read as Bool, `firedAt`
is the nullable column. -/
structure Reminder where
  id : Int
  targetType : TargetType
  targetId : Int
  dueAt : Int
  message : String
  isDone : Bool
  firedAt : Option Int
  createdAt : Int
  deriving DecidableEq, Repr

/-- Row of the `link_attachments` table (src/server/db.js); all enrichment
columns are nullable. -/
structure LinkAttachment where
  id : Int
  ownerType : TargetType
  ownerId : Int
  url : String
  title : Option String
  description : Option String
  imageUrl : Option String
  faviconUrl : Option String
  screenshotPath : Option String
  lastFetchedAt : Option Int
  createdAt : Int
  updatedAt : Int
  deriving DecidableEq, Repr

/-- The embedded database. Tasks and notes are kept as their id sets only:
the auxiliary services read nothing else from them. `subtasks` pairs are
(id, task_id) and `noteTaskLinks` pairs are (note_id, task_id); both carry an
ON DELETE CASCADE foreign key in the schema, while `reminders` and
`link_attachments` reference their target with no foreign key at all.
`nextReminderId` / `nextLinkId` model the AUTOINCREMENT counters. -/
structure Store where
  tasks : List Int
  notes : List Int
  subtasks : List (Int × Int)
  noteTaskLinks : List (Int × Int)
  reminders : List Reminder
  links : List LinkAttachment
  nextReminderId : Int
  nextLinkId : Int
  deriving DecidableEq, Repr

/-- HTTP reply of a handler: a success status with a JSON body, or an error
status with the message object `{ error: msg }`. -/
inductive Reply (α : Type) where
  | ok (status : Nat) (body : α)
  | err (status : Nat) (msg : String)
  deriving DecidableEq, Repr

/-- Order used by `ORDER BY datetime(dueAt) ASC, id ASC`. -/
def ReminderLE (a b : Reminder) : Prop :=
  a.dueAt < b.dueAt ∨ (a.dueAt = b.dueAt ∧ a.id ≤ b.id)

instance : DecidableRel ReminderLE := fun a b => by
  unfold ReminderLE; infer_instance

instance : IsTotal Reminder ReminderLE where
  total a b := by unfold ReminderLE; omega

instance : IsTrans Reminder ReminderLE where
  trans a b c := by unfold ReminderLE; omega

/-- Target Resolver: the existence check `SELECT id FROM tasks WHERE id = ?`
(resp. notes) that both reminder creation and link creation perform on the
`(targetType, targetId)` pair. -/
def resolveTarget (s : Store) (tt : TargetType) (tid : Int) : Bool :=
  match tt with
  | .TASK => decide (tid ∈ s.tasks)
  | .NOTE => decide (tid ∈ s.notes)

/-- GET /api/reminders: all reminders, or only the not-done ones, ordered by
dueAt then id. -/
def listReminders (s : Store) (includeDone : Bool) : List Reminder :=
  let rows := if includeDone then s.reminders else s.reminders.filter (fun r => !r.isDone)
  rows.insertionSort ReminderLE

/-- Body of POST /api/reminders after JSON parsing. `targetType` is `none`
when the field is anything other than the strings TASK or NOTE; `targetId` is
`none` when `Number(body.targetId)` is not finite; `dueAt` is `none` when the
field is not a string or trims to empty, `some none` when the trimmed string
does not satisfy `Number.isFinite(Date.parse(dueAt))`, and `some (some t)`
when it parses to the instant `t`; `message` is `none` when not a string. -/
structure CreateReminderBody where
  targetType : Option TargetType
  targetId : Option Int
  dueAt : Option (Option Int)
  message : Option String
  deriving DecidableEq, Repr

/-- POST /api/reminders: validates the body, resolves the target, then
inserts a row with `isDone = 0, firedAt = NULL`. `now` is `nowIso()`. -/
def createReminder (s : Store) (b : CreateReminderBody) (now : Int) :
    Reply Reminder × Store :=
  match b.targetType with
  | none => (.err 400 "targetType must be TASK or NOTE", s)
  | some tt =>
    match b.targetId with
    | none => (.err 400 "targetId is required", s)
    | some tid =>
      match b.dueAt with
      | none => (.err 400 "dueAt is required", s)
      | some none => (.err 400 "dueAt must be an ISO date string", s)
      | some (some due) =>
        if resolveTarget s tt tid then
          let r : Reminder :=
            { id := s.nextReminderId, targetType := tt, targetId := tid,
              dueAt := due, message := b.message.getD "", isDone := false,
              firedAt := none, createdAt := now }
          (.ok 201 r,
           { s with reminders := s.reminders ++ [r],
                    nextReminderId := s.nextReminderId + 1 })
        else
          (.err 404 (match tt with
                     | .TASK => "Task not found"
                     | .NOTE => "Note not found"), s)

/-- Body of PUT /api/reminders/:id. `dueAt` is `none` when the field is not a
string (the handler then keeps the existing value), `some none` when the
string fails `Date.parse`, `some (some t)` when it parses to `t`; `message`
and `isDone` are `none` when absent or of the wrong type. -/
structure UpdateReminderBody where
  dueAt : Option (Option Int)
  message : Option String
  isDone : Option Bool
  deriving DecidableEq, Repr

/-- PUT /api/reminders/:id. `id?` is `none` when `Number(req.params.id)` is
not finite. The handler recomputes every column from the body with the
existing row as fallback, and sets `firedAt` to the existing value when the
resulting row is done and to NULL otherwise. -/
def updateReminder (s : Store) (id? : Option Int) (b : UpdateReminderBody) :
    Reply Reminder × Store :=
  match id? with
  | none => (.err 400 "Invalid reminder id", s)
  | some i =>
    match s.reminders.find? (fun r => r.id == i) with
    | none => (.err 404 "Reminder not found", s)
    | some existing =>
      match b.dueAt with
      | some none => (.err 400 "dueAt must be an ISO date string", s)
      | _ =>
        let dueAt := match b.dueAt with
          | some (some t) => t
          | _ => existing.dueAt
        let message := b.message.getD existing.message
        let isDone := b.isDone.getD existing.isDone
        let firedAt := if isDone then existing.firedAt else none
        let r : Reminder :=
          { existing with dueAt := dueAt, message := message,
                          isDone := isDone, firedAt := firedAt }
        (.ok 200 r,
         { s with reminders := s.reminders.map (fun x => if x.id == i then r else x) })

/-- Clamp applied to the `take` query parameter:
`Math.max(1, Math.min(50, Number(req.query.take ?? 20)))`. -/
def clampTake (take : Int) : Int := max 1 (min 50 take)

/-- The WHERE clause of the due poll:
`isDone = 0 AND firedAt IS NULL AND datetime(dueAt) <= datetime(now)`. -/
def isDue (now : Int) (r : Reminder) : Bool :=
  !r.isDone && r.firedAt.isNone && decide (r.dueAt ≤ now)

/-- The SELECT of the due poll: due and unfired rows ordered by dueAt then
id, capped at the clamped `take`. -/
def dueRows (s : Store) (now : Int) (take : Int) : List Reminder :=
  ((s.reminders.filter (isDue now)).insertionSort ReminderLE).take
    (clampTake take).toNat

/-- GET /api/reminders/due: inside one `db.transaction`, run the due SELECT,
stamp `firedAt = now` on every selected id (`UPDATE ... WHERE id IN (...)`),
and return the rows as selected, before the update. The transaction runs as
a single step of the synchronous store, which is what makes the
select-and-mark pair atomic. -/
def pollDue (s : Store) (now : Int) (take : Int) : List Reminder × Store :=
  let due := dueRows s now take
  let ids := due.map Reminder.id
  let stamp := fun (r : Reminder) =>
    if r.id ∈ ids then { r with firedAt := some now } else r
  (due, { s with reminders := s.reminders.map stamp })

/-- A sequence of due polls run one after the other against the same store;
each call is a pair (now, take). Returns the list of result sets. -/
def runPolls (s : Store) (calls : List (Int × Int)) : List (List Reminder) × Store :=
  match calls with
  | [] => ([], s)
  | c :: rest =>
    let out := pollDue s c.1 c.2
    let more := runPolls out.2 rest
    (out.1 :: more.1, more.2)

/-- DELETE /api/tasks/:id: one `DELETE FROM tasks WHERE id = ?`. The schema
cascades the delete to `subtasks` and `note_task_links` (their task_id column
is a REFERENCES ... ON DELETE CASCADE foreign key) and nowhere else;
`reminders` and `link_attachments` have no foreign key. 404 when no row was
deleted. -/
def deleteTask (s : Store) (id? : Option Int) : Reply Unit × Store :=
  match id? with
  | none => (.err 400 "Invalid task id", s)
  | some i =>
    ((if i ∈ s.tasks then .ok 204 () else .err 404 "Task not found"),
     { s with tasks := s.tasks.filter (fun t => decide (t ≠ i)),
              subtasks := s.subtasks.filter (fun p => decide (p.2 ≠ i)),
              noteTaskLinks := s.noteTaskLinks.filter (fun p => decide (p.2 ≠ i)) })

/-- DELETE /api/notes/:id: one `DELETE FROM notes WHERE id = ?`; the schema
cascades only to `note_task_links` (note_id column). -/
def deleteNote (s : Store) (id? : Option Int) : Reply Unit × Store :=
  match id? with
  | none => (.err 400 "Invalid note id", s)
  | some i =>
    ((if i ∈ s.notes then .ok 204 () else .err 404 "Note not found"),
     { s with notes := s.notes.filter (fun n => decide (n ≠ i)),
              noteTaskLinks := s.noteTaskLinks.filter (fun p => decide (p.1 ≠ i)) })

/-! Link enrichment pipeline. `fetchUrlText`, `getLinkPreview` and
`captureScreenshot` perform network and process I/O; their interaction with
the outside world is captured by an `Env` value fixing what each external
call would produce for the one URL the request is about, and the functions
become deterministic functions of that environment. A thrown JS exception is
an `Except.error` carrying the message. -/

/-! String primitives. The JS string operations the URL code relies on are
re-implemented over the character list of the string, so that every
definition below evaluates inside the kernel on concrete inputs. -/

/-- Model of `String.prototype.startsWith`. -/
def strStartsWith (s pre : String) : Bool :=
  pre.data.isPrefixOf s.data

/-- First `n` characters dropped. -/
def strDrop (s : String) (n : Nat) : String :=
  String.mk (s.data.drop n)

/-- Model of `String.prototype.trim`. -/
def trimStr (s : String) : String :=
  String.mk (((s.data.dropWhile Char.isWhitespace).reverse.dropWhile
    Char.isWhitespace).reverse)

/-- Split of a character list at every occurrence of the character `c`,
matching `String.prototype.split` with a one-character separator. -/
def splitOnChar (c : Char) : List Char → List (List Char)
  | [] => [[]]
  | a :: as =>
    match splitOnChar c as with
    | [] => [[a]]
    | r :: rs => if a == c then [] :: r :: rs else (a :: r) :: rs

/-- Join with a separator character between the pieces. -/
def joinWithChar (c : Char) : List (List Char) → List Char
  | [] => []
  | [p] => p
  | p :: ps => p ++ c :: joinWithChar c ps

/-- Parsed absolute http(s) URL: the slice of the WHATWG URL record that
`isValidHttpUrl` and the `new URL` resolutions read. `host` keeps any port
text; `path` always begins with a slash. -/
structure HttpUrl where
  secure : Bool
  host : String
  path : String
  deriving DecidableEq, Repr

/-- Scheme text of a parsed URL. -/
def HttpUrl.scheme (u : HttpUrl) : String := if u.secure then "https" else "http"

/-- Serialization, as `URL.prototype.toString` renders these components. -/
def HttpUrl.render (u : HttpUrl) : String := u.scheme ++ "://" ++ u.host ++ u.path

/-- Splits the part after `scheme://` into host and path; an empty path
renders as the root slash, as the WHATWG parser normalizes it. Fails on an
empty host, where the `URL` constructor throws. -/
def parseAfterScheme (secure : Bool) (rest : String) : Option HttpUrl :=
  match splitOnChar '/' rest.data with
  | [] => none
  | host :: segs =>
    if host = [] then none
    else some { secure := secure,
                host := String.mk host,
                path := String.mk ('/' :: joinWithChar '/' segs) }

/-- Model of `new URL(input)` restricted to absolute http(s) inputs: any
other input (no scheme, another scheme, empty host) yields `none`, exactly
the inputs on which `isValidHttpUrl` answers false, either because the
constructor throws or because the protocol check fails. -/
def parseHttpUrl (input : String) : Option HttpUrl :=
  if strStartsWith input "https://" then parseAfterScheme true (strDrop input 8)
  else if strStartsWith input "http://" then parseAfterScheme false (strDrop input 7)
  else none

/-- Validation `isValidHttpUrl` from src/server/index.js: the string parses
as a URL whose protocol is http or https. -/
def isValidHttpUrl (input : String) : Bool :=
  (parseHttpUrl input).isSome

/-- True when the string begins with a scheme component (letters, digits,
plus, minus or dot, starting with a letter, up to the first colon), so the
WHATWG parser treats it as an absolute URL of that scheme. -/
def hasSchemePrefix (s : String) : Bool :=
  let pre := s.data.takeWhile (fun c => !(c == ':'))
  decide (pre.length < s.data.length) && !pre.isEmpty
    && pre.all (fun c => c.isAlpha || c.isDigit || c == '+' || c == '-' || c == '.')
    && (pre.headD 'A').isAlpha

/-- Base path with everything after its last slash removed, as WHATWG
relative resolution keeps the directory part of the base path. -/
def dirPart (path : String) : String :=
  String.mk ((path.data.reverse.dropWhile (fun c => !(c == '/'))).reverse)

/-- Model of `new URL(href, base).toString()` for the href shapes the
extractor meets: an absolute http(s) URL, an absolute URL of another scheme
(kept as written), a protocol-relative href, a root-relative href, and a
path-relative href. `none` models the constructor throwing (invalid base). -/
def resolveUrl (href : String) (base : String) : Option String :=
  match parseHttpUrl href with
  | some u => some u.render
  | none =>
    if hasSchemePrefix href then some href
    else
      match parseHttpUrl base with
      | none => none
      | some b =>
        if strStartsWith href "//" then
          (parseHttpUrl (b.scheme ++ ":" ++ href)).map HttpUrl.render
        else if strStartsWith href "/" then
          some (b.scheme ++ "://" ++ b.host ++ href)
        else if href = "" then
          some b.render
        else
          some (b.scheme ++ "://" ++ b.host ++ dirPart b.path ++ href)

/-- Abstraction of the cheerio document: the values read by the six
selectors in `getLinkPreview`. An `attr` that is absent is `none`; the text
of the title element is a plain (possibly empty) string. -/
structure HtmlDoc where
  ogTitle : Option String
  titleText : String
  ogDescription : Option String
  metaDescription : Option String
  ogImage : Option String
  twitterImage : Option String
  iconHref : Option String
  shortcutIconHref : Option String
  appleTouchIconHref : Option String
  deriving DecidableEq, Repr

/-- Outcome of the HTTP GET issued by `fetchUrlText` for the requested URL.
`ok` carries the response body as seen through `cheerio.load` together with
the response URL after redirects (`res.url`, which the code never reads);
`httpError` is a response with `res.ok` false, on which `fetchUrlText`
throws `Failed to fetch (status)`; `networkError` is a rejected `fetch`. -/
inductive FetchOutcome where
  | ok (doc : HtmlDoc) (finalUrl : String)
  | httpError (status : Nat)
  | networkError
  deriving DecidableEq, Repr

instance {ε α : Type} [DecidableEq ε] [DecidableEq α] : DecidableEq (Except ε α) :=
  fun a b =>
    match a, b with
    | .ok x, .ok y =>
      if h : x = y then .isTrue (by rw [h]) else .isFalse (by simp [h])
    | .error x, .error y =>
      if h : x = y then .isTrue (by rw [h]) else .isFalse (by simp [h])
    | .ok _, .error _ => .isFalse (by simp)
    | .error _, .ok _ => .isFalse (by simp)

/-- External-world snapshot for one enrichment request: whether the two
optional capabilities load, what the fetch of the requested URL produces,
whether the LINK_SCREENSHOTS flag is set, and what the capture attempt
produces (a stored filename, or the message of the exception thrown while
navigating or capturing). -/
structure Env where
  cheerio : Bool
  fetch : FetchOutcome
  screenshotsEnabled : Bool
  playwright : Bool
  screenshot : Except String String
  deriving DecidableEq, Repr

/-- The `pick` helper of `getLinkPreview`: the first candidate that is a
present string with nonempty trim, returned trimmed, else null. -/
def pick (values : List (Option String)) : Option String :=
  ((values.filterMap id).find? (fun v => trimStr v != "")).map trimStr

/-- Result shape of `getLinkPreview`. -/
structure Preview where
  url : String
  title : Option String
  description : Option String
  imageUrl : Option String
  faviconUrl : Option String
  deriving DecidableEq, Repr

/-- The `getLinkPreview` pipeline. When cheerio fails to load, every field is
null and no fetch happens. Otherwise a failed fetch throws out of the
function. On a body, each field takes the first nonempty candidate; the
favicon href is resolved against the INPUT url with a null fallback when the
resolution throws, and the image keeps its raw value on a failed
resolution. -/
def getLinkPreview (env : Env) (url : String) : Except String Preview :=
  if !env.cheerio then
    .ok { url := url, title := none, description := none,
          imageUrl := none, faviconUrl := none }
  else
    match env.fetch with
    | .httpError status => .error ("Failed to fetch (" ++ toString status ++ ")")
    | .networkError => .error "fetch failed"
    | .ok doc _ =>
      let title := pick [doc.ogTitle, some doc.titleText]
      let description := pick [doc.ogDescription, doc.metaDescription]
      let imageUrl := pick [doc.ogImage, doc.twitterImage]
      let faviconHref := pick [doc.iconHref, doc.shortcutIconHref, doc.appleTouchIconHref]
      let faviconUrl := faviconHref.bind (fun h => resolveUrl h url)
      let resolvedImageUrl := imageUrl.map (fun img => (resolveUrl img url).getD img)
      .ok { url := url, title := title, description := description,
            imageUrl := resolvedImageUrl, faviconUrl := faviconUrl }

/-- Modelled from the spec: the variant of `getLinkPreview` that section 4.3
describes, in which relative favicon and image hrefs are resolved against the
FETCHED page URL (the response URL after redirects) instead of the original
input URL. Used only to compare the code against the spec sentence. -/
def getLinkPreviewSpec (env : Env) (url : String) : Except String Preview :=
  if !env.cheerio then
    .ok { url := url, title := none, description := none,
          imageUrl := none, faviconUrl := none }
  else
    match env.fetch with
    | .httpError status => .error ("Failed to fetch (" ++ toString status ++ ")")
    | .networkError => .error "fetch failed"
    | .ok doc finalUrl =>
      let title := pick [doc.ogTitle, some doc.titleText]
      let description := pick [doc.ogDescription, doc.metaDescription]
      let imageUrl := pick [doc.ogImage, doc.twitterImage]
      let faviconHref := pick [doc.iconHref, doc.shortcutIconHref, doc.appleTouchIconHref]
      let faviconUrl := faviconHref.bind (fun h => resolveUrl h finalUrl)
      let resolvedImageUrl := imageUrl.map (fun img => (resolveUrl img finalUrl).getD img)
      .ok { url := url, title := title, description := description,
            imageUrl := resolvedImageUrl, faviconUrl := faviconUrl }

/-- The `captureScreenshot` pipeline: null when the LINK_SCREENSHOTS flag is
not the string 1, null when playwright fails to load, otherwise the capture
outcome; a navigation or capture exception propagates (after the browser is
closed by the finally block, which owns no observable state here). -/
def captureScreenshot (env : Env) : Except String (Option String) :=
  if !env.screenshotsEnabled then .ok none
  else if !env.playwright then .ok none
  else
    match env.screenshot with
    | .ok filename => .ok (some filename)
    | .error e => .error e

/-- POST /api/tasks/:id/links and POST /api/notes/:id/links, which differ
only in the owner type, the owner table consulted and the 404 message. The
id check and owner lookup come first, then URL trim and validation, then the
try block: preview, screenshot, INSERT, 201 with the inserted row; any error
thrown by preview or screenshot is answered with 500 and nothing is
inserted. -/
def postOwnerLink (env : Env) (s : Store) (ownerType : TargetType)
    (ownerId? : Option Int) (urlRaw : Option String) (now : Int) :
    Reply LinkAttachment × Store :=
  match ownerId? with
  | none => (.err 400 (match ownerType with
                       | .TASK => "Invalid task id"
                       | .NOTE => "Invalid note id"), s)
  | some oid =>
    if !resolveTarget s ownerType oid then
      (.err 404 (match ownerType with
                 | .TASK => "Task not found"
                 | .NOTE => "Note not found"), s)
    else
      let url := trimStr (urlRaw.getD "")
      if url = "" || !isValidHttpUrl url then
        (.err 400 "Valid http(s) url is required", s)
      else
        match getLinkPreview env url with
        | .error e => (.err 500 e, s)
        | .ok preview =>
          match captureScreenshot env with
          | .error e => (.err 500 e, s)
          | .ok shot =>
            let row : LinkAttachment :=
              { id := s.nextLinkId, ownerType := ownerType, ownerId := oid,
                url := url, title := preview.title,
                description := preview.description,
                imageUrl := preview.imageUrl, faviconUrl := preview.faviconUrl,
                screenshotPath := shot, lastFetchedAt := some now,
                createdAt := now, updatedAt := now }
            (.ok 201 row,
             { s with links := s.links ++ [row], nextLinkId := s.nextLinkId + 1 })

/-! Concrete instances used by the example theorems below. -/

/-- A store holding the single task 1 and nothing else. -/
def oneTaskStore : Store :=
  { tasks := [1], notes := [], subtasks := [], noteTaskLinks := [],
    reminders := [], links := [], nextReminderId := 1, nextLinkId := 1 }

/-- Creation request for a reminder on task 1, message ping, due at 999. -/
def pingBody : CreateReminderBody :=
  { targetType := some .TASK, targetId := some 1,
    dueAt := some (some 999), message := some "ping" }

/-- The store after creating the ping reminder at instant 999. -/
def pingStore : Store := (createReminder oneTaskStore pingBody 999).2

/-- A reminder on task 1 that has already fired at 50 (dueAt 100, not
done). -/
def firedReminder : Reminder :=
  { id := 1, targetType := .TASK, targetId := 1, dueAt := 100,
    message := "m", isDone := false, firedAt := some 50, createdAt := 0 }

/-- A store holding task 1 and the already-fired reminder. -/
def firedStore : Store :=
  { tasks := [1], notes := [], subtasks := [], noteTaskLinks := [],
    reminders := [firedReminder],
    links := [], nextReminderId := 2, nextLinkId := 1 }

/-- Update request that edits only the message: dueAt absent from the body,
isDone absent. -/
def messageOnlyBody : UpdateReminderBody :=
  { dueAt := none, message := some "edited", isDone := none }

/-- Update request that only sets isDone to true. -/
def markDoneBody : UpdateReminderBody :=
  { dueAt := none, message := none, isDone := some true }

/-- The second of two reminders that are both due at instant 10. -/
def secondDueReminder : Reminder :=
  { id := 2, targetType := .TASK, targetId := 1, dueAt := 0,
    message := "b", isDone := false, firedAt := none, createdAt := 0 }

/-- A store with two unfired reminders both due at instant 10. -/
def twoDueStore : Store :=
  { tasks := [1], notes := [], subtasks := [], noteTaskLinks := [],
    reminders := [{ id := 1, targetType := .TASK, targetId := 1, dueAt := 0,
                    message := "a", isDone := false, firedAt := none,
                    createdAt := 0 },
                  secondDueReminder],
    links := [], nextReminderId := 3, nextLinkId := 1 }

/-- A page whose only extractable field is a root-relative favicon href. -/
def faviconDoc : HtmlDoc :=
  { ogTitle := none, titleText := "", ogDescription := none,
    metaDescription := none, ogImage := none, twitterImage := none,
    iconHref := some "/favicon.ico", shortcutIconHref := none,
    appleTouchIconHref := none }

/-- Environment in which the fetch answers 404 while cheerio is present. -/
def fetch404Env : Env :=
  { cheerio := true, fetch := .httpError 404, screenshotsEnabled := false,
    playwright := false, screenshot := .error "boom" }

/-- Environment in which the fetch of the requested page was redirected to a
different host before answering. -/
def redirectEnv : Env :=
  { cheerio := true, fetch := .ok faviconDoc "https://other.example/page",
    screenshotsEnabled := false, playwright := false, screenshot := .error "e" }

/-- Environment in which the fetch succeeded with no redirect. -/
def sameUrlEnv : Env :=
  { cheerio := true, fetch := .ok faviconDoc "https://example.com/page",
    screenshotsEnabled := false, playwright := false, screenshot := .error "e" }

/-- Environment in which neither optional capability is installed and the
network is unreachable. -/
def noCapsEnv : Env :=
  { cheerio := false, fetch := .networkError, screenshotsEnabled := false,
    playwright := false, screenshot := .error "e" }

/-! Helper lemmas shared by the claim theorems. -/

theorem isDue_iff {now : Int} {r : Reminder} :
    isDue now r = true ↔ (r.isDone = false ∧ r.firedAt = none ∧ r.dueAt ≤ now) := by
  simp [isDue, Option.isNone_iff_eq_none, and_assoc]

theorem mem_dueRows {s : Store} {now take : Int} {r : Reminder}
    (h : r ∈ dueRows s now take) : r ∈ s.reminders ∧ isDue now r = true := by
  unfold dueRows at h
  have h1 := (List.take_sublist _ _).subset h
  have h2 := (List.perm_insertionSort ReminderLE _).subset h1
  exact List.mem_filter.mp h2

theorem pollDue_fst (s : Store) (now take : Int) :
    (pollDue s now take).1 = dueRows s now take := rfl

theorem pollDue_snd_reminders (s : Store) (now take : Int) :
    (pollDue s now take).2.reminders =
      s.reminders.map (fun r =>
        if r.id ∈ (dueRows s now take).map Reminder.id
        then { r with firedAt := some now } else r) := rfl

/-- Proposition: every stored row carrying the id has a non-null firedAt. -/
def FiredIn (s : Store) (i : Int) : Prop :=
  ∀ r ∈ s.reminders, r.id = i → r.firedAt ≠ none

theorem firedIn_after_pollDue {s : Store} {now take : Int} {i : Int}
    (h : i ∈ (pollDue s now take).1.map Reminder.id) :
    FiredIn (pollDue s now take).2 i := by
  intro r hr hid
  rw [pollDue_snd_reminders] at hr
  obtain ⟨x, hx, hxr⟩ := List.mem_map.mp hr
  rw [pollDue_fst] at h
  by_cases hmem : x.id ∈ (dueRows s now take).map Reminder.id
  · rw [if_pos hmem] at hxr
    rw [← hxr]
    simp
  · rw [if_neg hmem] at hxr
    subst hxr
    exact absurd (hid ▸ h) hmem

theorem firedIn_preserved_by_pollDue {s : Store} {now take : Int} {i : Int}
    (h : FiredIn s i) : FiredIn (pollDue s now take).2 i := by
  intro r hr hid
  rw [pollDue_snd_reminders] at hr
  obtain ⟨x, hx, hxr⟩ := List.mem_map.mp hr
  by_cases hmem : x.id ∈ (dueRows s now take).map Reminder.id
  · rw [if_pos hmem] at hxr
    rw [← hxr]
    simp
  · rw [if_neg hmem] at hxr
    subst hxr
    exact h x hx hid

theorem firedIn_not_selected {s : Store} {now take : Int} {i : Int}
    (h : FiredIn s i) : i ∉ (pollDue s now take).1.map Reminder.id := by
  intro hmem
  rw [pollDue_fst] at hmem
  obtain ⟨r, hr, hid⟩ := List.mem_map.mp hmem
  have hm := mem_dueRows hr
  have hfired := h r hm.1 hid
  exact hfired (isDue_iff.mp hm.2).2.1

theorem firedIn_never_in_later_polls {i : Int} :
    ∀ (calls : List (Int × Int)) (s : Store), FiredIn s i →
      ∀ l ∈ (runPolls s calls).1, i ∉ l.map Reminder.id := by
  intro calls
  induction calls with
  | nil => intro s _ l hl; simp [runPolls] at hl
  | cons c rest ih =>
    intro s hs l hl
    simp only [runPolls, List.mem_cons] at hl
    cases hl with
    | inl h1 => subst h1; exact firedIn_not_selected hs
    | inr h2 => exact ih _ (firedIn_preserved_by_pollDue hs) l h2

/-! Claim theorems. -/

/-- C7: for every store and includeDone flag, GET /api/reminders returns a
list sorted by dueAt ascending with ties broken by id ascending, whose
members are exactly the stored reminders, excluding the done ones unless
includeDone is requested. -/
theorem listReminders_ordered_and_filtered (s : Store) (includeDone : Bool) :
    List.Sorted ReminderLE (listReminders s includeDone) ∧
    ∀ r : Reminder, r ∈ listReminders s includeDone ↔
      (r ∈ s.reminders ∧ (includeDone = true ∨ r.isDone = false)) := by
  constructor
  · exact List.sorted_insertionSort ReminderLE _
  · intro r
    unfold listReminders
    cases includeDone <;>
      simp [(List.perm_insertionSort ReminderLE _).mem_iff, List.mem_filter]

/-- C7 witness: the ordering statement evaluated on the two-reminder
store. -/
theorem listReminders_ordered_and_filtered_witness :
    secondDueReminder ∈ listReminders twoDueStore false ↔
      (secondDueReminder ∈ twoDueStore.reminders ∧
        (false = true ∨ secondDueReminder.isDone = false)) :=
  (listReminders_ordered_and_filtered twoDueStore false).2 secondDueReminder

/-- C2: the due poll clamps the requested limit into 1..50; every returned
row is a stored row that was not done, unfired and due at the poll instant,
in its pre-update state; the result is sorted by dueAt then id and capped at
the clamped limit; when the cap is not hit, every eligible stored row is
returned; when it is hit, every returned row precedes every eligible row
left behind in (dueAt, id) order, so the result is the initial segment of
the ordered eligible set; in the same step, every selected row is re-stored
with firedAt = now while every unselected row is stored unchanged, and no
other table is touched. -/
theorem pollDue_spec (s : Store) (now take : Int) :
    (1 ≤ clampTake take ∧ clampTake take ≤ 50) ∧
    (∀ r ∈ (pollDue s now take).1,
        r ∈ s.reminders ∧ r.isDone = false ∧ r.firedAt = none ∧ r.dueAt ≤ now) ∧
    List.Sorted ReminderLE (pollDue s now take).1 ∧
    (pollDue s now take).1.length ≤ (clampTake take).toNat ∧
    ((pollDue s now take).1.length < (clampTake take).toNat →
        ∀ r ∈ s.reminders, isDue now r = true → r ∈ (pollDue s now take).1) ∧
    (∀ r ∈ (pollDue s now take).1, ∀ q ∈ s.reminders, isDue now q = true →
        q ∉ (pollDue s now take).1 → ReminderLE r q) ∧
    (∀ r ∈ (pollDue s now take).1,
        { r with firedAt := some now } ∈ (pollDue s now take).2.reminders) ∧
    (∀ r ∈ s.reminders, r.id ∉ ((pollDue s now take).1.map Reminder.id) →
        r ∈ (pollDue s now take).2.reminders) ∧
    (pollDue s now take).2.tasks = s.tasks ∧
    (pollDue s now take).2.notes = s.notes ∧
    (pollDue s now take).2.links = s.links := by
  refine ⟨⟨?_, ?_⟩, ?_, ?_, ?_, ?_, ?_, ?_, ?_, rfl, rfl, rfl⟩
  · unfold clampTake; omega
  · unfold clampTake; omega
  · intro r hr
    rw [pollDue_fst] at hr
    have hm := mem_dueRows hr
    have hd := isDue_iff.mp hm.2
    exact ⟨hm.1, hd.1, hd.2.1, hd.2.2⟩
  · rw [pollDue_fst]
    unfold dueRows
    exact List.Pairwise.sublist (List.take_sublist _ _)
      (List.sorted_insertionSort ReminderLE _)
  · rw [pollDue_fst]
    unfold dueRows
    rw [List.length_take]
    exact min_le_left _ _
  · intro hlt r hr hdue
    rw [pollDue_fst] at hlt ⊢
    unfold dueRows at hlt ⊢
    rw [List.length_take] at hlt
    have hlen : ((s.reminders.filter (isDue now)).insertionSort ReminderLE).length
        ≤ (clampTake take).toNat := by omega
    rw [List.take_of_length_le hlen]
    exact ((List.perm_insertionSort ReminderLE _).mem_iff).mpr
      (List.mem_filter.mpr ⟨hr, hdue⟩)
  · intro r hr q hq hdue hnot
    rw [pollDue_fst] at hr hnot
    unfold dueRows at hr hnot
    have hqL : q ∈ (s.reminders.filter (isDue now)).insertionSort ReminderLE :=
      ((List.perm_insertionSort ReminderLE _).mem_iff).mpr
        (List.mem_filter.mpr ⟨hq, hdue⟩)
    have hsplit := List.take_append_drop (clampTake take).toNat
      ((s.reminders.filter (isDue now)).insertionSort ReminderLE)
    have hsorted : List.Pairwise ReminderLE
        ((s.reminders.filter (isDue now)).insertionSort ReminderLE) :=
      List.sorted_insertionSort ReminderLE _
    rw [← hsplit] at hsorted hqL
    have hqdrop : q ∈ ((s.reminders.filter (isDue now)).insertionSort
        ReminderLE).drop (clampTake take).toNat := by
      rcases List.mem_append.mp hqL with h | h
      · exact absurd h hnot
      · exact h
    exact (List.pairwise_append.mp hsorted).2.2 r hr q hqdrop
  · intro r hr
    rw [pollDue_fst] at hr
    have hmem := (mem_dueRows hr).1
    rw [pollDue_snd_reminders]
    refine List.mem_map.mpr ⟨r, hmem, ?_⟩
    rw [if_pos (List.mem_map_of_mem Reminder.id hr)]
  · intro r hr hid
    rw [pollDue_fst] at hid
    rw [pollDue_snd_reminders]
    exact List.mem_map.mpr ⟨r, hr, if_neg hid⟩

/-- C2 witness: the selected row of the ping scenario is marked fired in the
post state. -/
theorem pollDue_spec_witness :
    ∀ r ∈ (pollDue pingStore 1000 10).1,
      { r with firedAt := some 1000 } ∈ (pollDue pingStore 1000 10).2.reminders :=
  (pollDue_spec pingStore 1000 10).2.2.2.2.2.2.1

/-- C3 counterexample: two reminders are both due at the call instant, but a
sequence of one poll with take 1 returns only the first, so the second
appears in the result set of zero calls, not exactly one. -/
theorem pollDue_starved_row_never_returned :
    secondDueReminder ∈ twoDueStore.reminders ∧
    isDue 10 secondDueReminder = true ∧
    ∀ l ∈ (runPolls twoDueStore [(10, 1)]).1, secondDueReminder ∉ l := by
  decide

/-- C3 (amended): across any sequence of polls run against the same store,
the result sets are pairwise disjoint by reminder id — a due reminder is
returned by at most one call, and a claimed reminder is never returned by a
later poll of the sequence. -/
theorem runPolls_at_most_once (s : Store) (calls : List (Int × Int)) :
    List.Pairwise
      (fun l1 l2 => ∀ i : Int, i ∈ l1.map Reminder.id → i ∉ l2.map Reminder.id)
      (runPolls s calls).1 := by
  induction calls generalizing s with
  | nil => simp [runPolls]
  | cons c rest ih =>
    simp only [runPolls]
    constructor
    · intro l hl i hi
      have hf := firedIn_after_pollDue (i := i) hi
      exact firedIn_never_in_later_polls rest _ hf l hl
    · exact ih _

/-- C3 witness: in the two-due-reminder store, a poll sequence of two calls
produces results that do not repeat an id. -/
theorem runPolls_at_most_once_witness :
    List.Pairwise
      (fun l1 l2 => ∀ i : Int, i ∈ l1.map Reminder.id → i ∉ l2.map Reminder.id)
      (runPolls twoDueStore [(10, 1), (10, 50)]).1 :=
  runPolls_at_most_once twoDueStore [(10, 1), (10, 50)]

/-- C4 counterexample: a message-only edit of the fired reminder — dueAt
absent from the body, so unchanged, and the row not done — comes back with
firedAt cleared to null, though the claim allows a reset only when dueAt
changes. -/
theorem updateReminder_message_edit_clears_firedAt :
    firedReminder.firedAt = some 50 ∧ firedReminder.dueAt = 100 ∧
    (updateReminder firedStore (some 1) messageOnlyBody).1 =
      .ok 200 { id := 1, targetType := .TASK, targetId := 1, dueAt := 100,
                message := "edited", isDone := false, firedAt := none,
                createdAt := 0 } := by decide

/-- C4 (amended): for every update of an existing reminder that passes
validation, the stored and returned row has firedAt = null whenever the
resulting row is not done — whether or not dueAt changed — and keeps the
previous firedAt whenever the resulting row is done. -/
theorem updateReminder_firedAt_rule (s : Store) (i : Int)
    (b : UpdateReminderBody) (existing : Reminder)
    (hfind : s.reminders.find? (fun r => r.id == i) = some existing)
    (hdue : b.dueAt ≠ some none) :
    ∃ r : Reminder,
      (updateReminder s (some i) b).1 = .ok 200 r ∧
      r.isDone = b.isDone.getD existing.isDone ∧
      (r.isDone = false → r.firedAt = none) ∧
      (r.isDone = true → r.firedAt = existing.firedAt) := by
  cases hb : b.dueAt with
  | none =>
    refine ⟨{ existing with
              dueAt := existing.dueAt,
              message := b.message.getD existing.message,
              isDone := b.isDone.getD existing.isDone,
              firedAt := if b.isDone.getD existing.isDone
                         then existing.firedAt else none },
            ?_, rfl, ?_, ?_⟩
    · simp only [updateReminder, hfind, hb]
    · intro h
      have h' : b.isDone.getD existing.isDone = false := h
      show (if b.isDone.getD existing.isDone
            then existing.firedAt else none) = none
      simp [h']
    · intro h
      have h' : b.isDone.getD existing.isDone = true := h
      show (if b.isDone.getD existing.isDone
            then existing.firedAt else none) = existing.firedAt
      simp [h']
  | some o =>
    cases o with
    | none => exact absurd hb hdue
    | some t =>
      refine ⟨{ existing with
                dueAt := t,
                message := b.message.getD existing.message,
                isDone := b.isDone.getD existing.isDone,
                firedAt := if b.isDone.getD existing.isDone
                           then existing.firedAt else none },
              ?_, rfl, ?_, ?_⟩
      · simp only [updateReminder, hfind, hb]
      · intro h
        have h' : b.isDone.getD existing.isDone = false := h
        show (if b.isDone.getD existing.isDone
              then existing.firedAt else none) = none
        simp [h']
      · intro h
        have h' : b.isDone.getD existing.isDone = true := h
        show (if b.isDone.getD existing.isDone
              then existing.firedAt else none) = existing.firedAt
        simp [h']

/-- C4 witness: marking the fired reminder done keeps its firedAt. -/
theorem updateReminder_firedAt_rule_witness :
    ∃ r : Reminder,
      (updateReminder firedStore (some 1) markDoneBody).1 = .ok 200 r ∧
      r.isDone = markDoneBody.isDone.getD firedReminder.isDone ∧
      (r.isDone = false → r.firedAt = none) ∧
      (r.isDone = true → r.firedAt = firedReminder.firedAt) :=
  updateReminder_firedAt_rule firedStore 1 markDoneBody firedReminder
    (by decide) (by decide)

/-- C5 counterexample: the ping reminder, due one second before the poll, is
returned exactly once by pollDue(1000, 10), but the returned occurrence
carries the pre-update firedAt = null, not the poll instant 1000. -/
theorem pollDue_ping_returns_prefire_row :
    (pollDue pingStore 1000 10).1.map Reminder.id = [1] ∧
    (pollDue pingStore 1000 10).1.map Reminder.firedAt = [none] ∧
    (pollDue pingStore 1000 10).1.map Reminder.firedAt ≠ [some 1000] := by decide

/-- C5 (amended): creating the ping reminder with dueAt 999 on task 1
succeeds; pollDue at 1000 returns it exactly once as the pre-update row with
firedAt null, while the stored row is stamped firedAt = 1000; a second
immediate poll returns the empty list. -/
theorem pollDue_ping_scenario :
    (createReminder oneTaskStore pingBody 999).1 =
      .ok 201 { id := 1, targetType := .TASK, targetId := 1, dueAt := 999,
                message := "ping", isDone := false, firedAt := none,
                createdAt := 999 } ∧
    (pollDue pingStore 1000 10).1 =
      [{ id := 1, targetType := .TASK, targetId := 1, dueAt := 999,
         message := "ping", isDone := false, firedAt := none,
         createdAt := 999 }] ∧
    (pollDue pingStore 1000 10).2.reminders.map Reminder.firedAt = [some 1000] ∧
    (pollDue (pollDue pingStore 1000 10).2 1000 10).1 = [] := by decide

/-- C8: reminder creation answers 400 and leaves the store untouched when
targetType is not TASK or NOTE, targetId is not a finite number, or dueAt is
missing or unparseable; answers 404 and leaves the store untouched when the
target does not resolve; and otherwise appends exactly one new row with
isDone = false and firedAt = null, built from the request. -/
theorem createReminder_spec (s : Store) (b : CreateReminderBody) (now : Int) :
    ((b.targetType = none ∨ b.targetId = none ∨ b.dueAt = none ∨
        b.dueAt = some none) →
      ∃ m, createReminder s b now = (.err 400 m, s)) ∧
    (∀ (tt : TargetType) (tid t : Int),
      b.targetType = some tt → b.targetId = some tid → b.dueAt = some (some t) →
      (resolveTarget s tt tid = false →
        ∃ m, createReminder s b now = (.err 404 m, s)) ∧
      (resolveTarget s tt tid = true →
        ∃ r : Reminder,
          createReminder s b now =
            (.ok 201 r,
             { s with reminders := s.reminders ++ [r],
                      nextReminderId := s.nextReminderId + 1 }) ∧
          r.isDone = false ∧ r.firedAt = none ∧ r.dueAt = t ∧
          r.targetType = tt ∧ r.targetId = tid ∧
          r.message = b.message.getD "" ∧ r.createdAt = now)) := by
  constructor
  · intro h
    cases ht1 : b.targetType with
    | none =>
      exact ⟨"targetType must be TASK or NOTE",
        by simp only [createReminder, ht1]⟩
    | some tt =>
      cases ht2 : b.targetId with
      | none =>
        exact ⟨"targetId is required", by simp only [createReminder, ht1, ht2]⟩
      | some tid =>
        cases ht3 : b.dueAt with
        | none =>
          exact ⟨"dueAt is required",
            by simp only [createReminder, ht1, ht2, ht3]⟩
        | some o =>
          cases o with
          | none =>
            exact ⟨"dueAt must be an ISO date string",
              by simp only [createReminder, ht1, ht2, ht3]⟩
          | some t =>
            rw [ht1, ht2, ht3] at h
            rcases h with h | h | h | h <;> simp at h
  · intro tt tid t h1 h2 h3
    constructor
    · intro hres
      cases tt with
      | TASK => exact ⟨"Task not found",
          by simp [createReminder, h1, h2, h3, hres]⟩
      | NOTE => exact ⟨"Note not found",
          by simp [createReminder, h1, h2, h3, hres]⟩
    · intro hres
      refine ⟨{ id := s.nextReminderId, targetType := tt, targetId := tid,
                dueAt := t, message := b.message.getD "", isDone := false,
                firedAt := none, createdAt := now },
              ?_, rfl, rfl, rfl, rfl, rfl, rfl, rfl⟩
      simp [createReminder, h1, h2, h3, hres]

/-- C8 witness: creating the ping reminder on the one-task store appends the
expected armed row. -/
theorem createReminder_spec_witness :
    ∃ r : Reminder,
      createReminder oneTaskStore pingBody 999 =
        (.ok 201 r,
         { oneTaskStore with
             reminders := oneTaskStore.reminders ++ [r],
             nextReminderId := oneTaskStore.nextReminderId + 1 }) ∧
      r.isDone = false ∧ r.firedAt = none ∧ r.dueAt = 999 ∧
      r.targetType = .TASK ∧ r.targetId = 1 ∧
      r.message = pingBody.message.getD "" ∧ r.createdAt = 999 :=
  (((createReminder_spec oneTaskStore pingBody 999).2 .TASK 1 999
    rfl rfl rfl).2) (by decide)

/-- C9: deleting a task or a note deletes nothing from the reminders and
link_attachments tables and changes no row in them; every reminder and
attachment — a dangling one included — survives the delete unchanged, while
the deleted id itself no longer resolves as a target. -/
theorem delete_leaves_aux_tables_untouched (s : Store) (id? : Option Int) :
    (deleteTask s id?).2.reminders = s.reminders ∧
    (deleteTask s id?).2.links = s.links ∧
    (deleteNote s id?).2.reminders = s.reminders ∧
    (deleteNote s id?).2.links = s.links ∧
    (∀ i : Int, id? = some i →
      resolveTarget (deleteTask s id?).2 .TASK i = false ∧
      resolveTarget (deleteNote s id?).2 .NOTE i = false) := by
  cases id? with
  | none => exact ⟨rfl, rfl, rfl, rfl, fun i h => by cases h⟩
  | some j =>
    refine ⟨rfl, rfl, rfl, rfl, fun i h => ?_⟩
    cases h
    constructor
    · simp [deleteTask, resolveTarget, List.mem_filter]
    · simp [deleteNote, resolveTarget, List.mem_filter]

/-- C9 witness: deleting task 1 leaves the fired reminder that targets it in
place, now dangling. -/
theorem delete_leaves_aux_tables_untouched_witness :
    (deleteTask firedStore (some 1)).2.reminders = firedStore.reminders ∧
    resolveTarget (deleteTask firedStore (some 1)).2 .TASK 1 = false :=
  ⟨(delete_leaves_aux_tables_untouched firedStore (some 1)).1,
   ((delete_leaves_aux_tables_untouched firedStore (some 1)).2.2.2.2 1 rfl).1⟩

/-- C10: reminder creation never compares dueAt with the current time: for
any parseable instant t, past instants included, creation succeeds whenever
the target resolves, and the created row already satisfies the due filter of
any poll at an instant no earlier than t. -/
theorem createReminder_past_due_immediately_eligible (s : Store)
    (b : CreateReminderBody) (createdAt now : Int) (tt : TargetType)
    (tid t : Int)
    (h1 : b.targetType = some tt) (h2 : b.targetId = some tid)
    (h3 : b.dueAt = some (some t)) (h4 : resolveTarget s tt tid = true)
    (h5 : t ≤ now) :
    ∃ r : Reminder,
      (createReminder s b createdAt).1 = .ok 201 r ∧
      isDue now r = true ∧
      r ∈ (createReminder s b createdAt).2.reminders.filter (isDue now) := by
  refine ⟨{ id := s.nextReminderId, targetType := tt, targetId := tid,
            dueAt := t, message := b.message.getD "", isDone := false,
            firedAt := none, createdAt := createdAt },
          ?_, isDue_iff.mpr ⟨rfl, rfl, h5⟩, ?_⟩
  · simp [createReminder, h1, h2, h3, h4]
  · refine List.mem_filter.mpr ⟨?_, isDue_iff.mpr ⟨rfl, rfl, h5⟩⟩
    simp [createReminder, h1, h2, h3, h4]

/-- C10 witness: a reminder created with dueAt 999, one second in the past
of the poll instant 1000, is due at 1000. -/
theorem createReminder_past_due_immediately_eligible_witness :
    ∃ r : Reminder,
      (createReminder oneTaskStore pingBody 999).1 = .ok 201 r ∧
      isDue 1000 r = true ∧
      r ∈ (createReminder oneTaskStore pingBody 999).2.reminders.filter
        (isDue 1000) :=
  createReminder_past_due_immediately_eligible oneTaskStore pingBody 999 1000
    .TASK 1 999 rfl rfl rfl (by decide) (by decide)

/-- C1 counterexample: on a request with a valid absolute https URL and an
existing owner task, a non-2xx fetch response is answered with a 500 error
and no LinkAttachment row is created — the content-acquisition failure is
surfaced to the caller instead of being absorbed into null fields. -/
theorem postLink_fetch_failure_surfaces_500 :
    postOwnerLink fetch404Env oneTaskStore .TASK (some 1)
        (some "https://example.com/x") 7
      = (.err 500 "Failed to fetch (404)", oneTaskStore) ∧
    oneTaskStore.links = [] := by decide

/-- C1 (amended): for a valid URL and a resolving owner, shortfalls of the
OPTIONAL capabilities are absorbed — with cheerio missing and screenshots
disabled or playwright missing, the row is created with 201 and the
enrichment fields null — but a fetch network error or non-2xx response (with
the parser present) and a screenshot capture failure (with capture enabled
and present) each propagate as a 500 reply with no row created. -/
theorem postOwnerLink_error_surface (env : Env) (s : Store) (tt : TargetType)
    (oid : Int) (raw : Option String) (now : Int)
    (hlive : resolveTarget s tt oid = true)
    (hne : trimStr (raw.getD "") ≠ "")
    (hvalid : isValidHttpUrl (trimStr (raw.getD "")) = true) :
    (env.cheerio = false →
      (env.screenshotsEnabled = false ∨ env.playwright = false) →
      ∃ row : LinkAttachment,
        postOwnerLink env s tt (some oid) raw now =
          (.ok 201 row,
           { s with links := s.links ++ [row],
                    nextLinkId := s.nextLinkId + 1 }) ∧
        row.url = trimStr (raw.getD "") ∧ row.title = none ∧
        row.description = none ∧ row.imageUrl = none ∧
        row.faviconUrl = none ∧ row.screenshotPath = none ∧
        row.lastFetchedAt = some now) ∧
    (env.cheerio = true →
      (env.fetch = .networkError ∨ ∃ st, env.fetch = .httpError st) →
      ∃ e, postOwnerLink env s tt (some oid) raw now = (.err 500 e, s)) ∧
    (∀ (doc : HtmlDoc) (finalUrl e : String),
      env.cheerio = true → env.fetch = .ok doc finalUrl →
      env.screenshotsEnabled = true → env.playwright = true →
      env.screenshot = .error e →
      postOwnerLink env s tt (some oid) raw now = (.err 500 e, s)) := by
  refine ⟨?_, ?_, ?_⟩
  · intro hch hcap
    refine ⟨{ id := s.nextLinkId, ownerType := tt, ownerId := oid,
              url := trimStr (raw.getD ""), title := none, description := none,
              imageUrl := none, faviconUrl := none, screenshotPath := none,
              lastFetchedAt := some now, createdAt := now, updatedAt := now },
            ?_, rfl, rfl, rfl, rfl, rfl, rfl, rfl⟩
    rcases hcap with hcap | hcap
    · simp [postOwnerLink, getLinkPreview, captureScreenshot,
            hlive, hch, hcap, hne, hvalid]
    · cases hse : env.screenshotsEnabled
      · simp [postOwnerLink, getLinkPreview, captureScreenshot,
              hlive, hch, hse, hne, hvalid]
      · simp [postOwnerLink, getLinkPreview, captureScreenshot,
              hlive, hch, hse, hcap, hne, hvalid]
  · intro hch hf
    rcases hf with hf | ⟨st, hf⟩
    · exact ⟨"fetch failed",
        by simp [postOwnerLink, getLinkPreview, hlive, hch, hf, hne, hvalid]⟩
    · exact ⟨"Failed to fetch (" ++ toString st ++ ")",
        by simp [postOwnerLink, getLinkPreview, hlive, hch, hf, hne, hvalid]⟩
  · intro doc finalUrl e hch hf hse hpw hshot
    simp [postOwnerLink, getLinkPreview, captureScreenshot,
          hlive, hch, hf, hse, hpw, hshot, hne, hvalid]

/-- C1 witness: with no optional capability installed and an unreachable
network, a link on task 1 is still created with every enrichment field
null. -/
theorem postOwnerLink_error_surface_witness :
    ∃ row : LinkAttachment,
      postOwnerLink noCapsEnv oneTaskStore .TASK (some 1)
          (some "https://x.example/") 7 =
        (.ok 201 row,
         { oneTaskStore with links := oneTaskStore.links ++ [row],
                             nextLinkId := oneTaskStore.nextLinkId + 1 }) ∧
      row.url = trimStr ((some "https://x.example/").getD "") ∧
      row.title = none ∧ row.description = none ∧ row.imageUrl = none ∧
      row.faviconUrl = none ∧ row.screenshotPath = none ∧
      row.lastFetchedAt = some 7 :=
  (postOwnerLink_error_surface noCapsEnv oneTaskStore .TASK 1
    (some "https://x.example/") 7 (by decide) (by decide) (by decide)).1
    rfl (.inl rfl)

/-- C6 counterexample: a page requested at example.com but served after a
redirect from other.example carries the favicon href /favicon.ico; the code
stores it resolved against the original input URL, which differs from the
resolution against the fetched page URL that the claim requires. -/
theorem favicon_resolved_against_input_not_final_url :
    getLinkPreview redirectEnv "https://example.com/page" =
      .ok { url := "https://example.com/page", title := none,
            description := none, imageUrl := none,
            faviconUrl := some "https://example.com/favicon.ico" } ∧
    getLinkPreviewSpec redirectEnv "https://example.com/page" =
      .ok { url := "https://example.com/page", title := none,
            description := none, imageUrl := none,
            faviconUrl := some "https://other.example/favicon.ico" } ∧
    ("https://example.com/favicon.ico" : String) ≠
      "https://other.example/favicon.ico" := by decide

/-- C6 (amended): on a successful fetch, extracted favicon and image hrefs
are resolved against the ORIGINAL INPUT url — the response URL after any
redirect is never consulted — and the result therefore coincides with the
resolution against the fetched page URL exactly when the fetch was not
redirected. -/
theorem getLinkPreview_resolves_against_input (env : Env) (url : String)
    (doc : HtmlDoc) (finalUrl : String)
    (hc : env.cheerio = true) (hf : env.fetch = .ok doc finalUrl) :
    getLinkPreview env url =
      .ok { url := url,
            title := pick [doc.ogTitle, some doc.titleText],
            description := pick [doc.ogDescription, doc.metaDescription],
            imageUrl := (pick [doc.ogImage, doc.twitterImage]).map
              (fun img => (resolveUrl img url).getD img),
            faviconUrl := (pick [doc.iconHref, doc.shortcutIconHref,
              doc.appleTouchIconHref]).bind (fun h => resolveUrl h url) } ∧
    (finalUrl = url → getLinkPreview env url = getLinkPreviewSpec env url) := by
  constructor
  · simp [getLinkPreview, hc, hf]
  · intro he
    subst he
    simp [getLinkPreview, getLinkPreviewSpec, hc, hf]

/-- C6 witness: on the unredirected fetch of the favicon page, the code and
the spec variant produce the same preview. -/
theorem getLinkPreview_resolves_against_input_witness :
    getLinkPreview sameUrlEnv "https://example.com/page" =
      getLinkPreviewSpec sameUrlEnv "https://example.com/page" :=
  (getLinkPreview_resolves_against_input sameUrlEnv "https://example.com/page"
    faviconDoc "https://example.com/page" rfl rfl).2 rfl

end TaskTracker
